import Mathlib

/-!
Verification of the NewRYMGenerator pipeline (`main.py`).

The file shallowly embeds the program's pure logic in Lean:

* `Utils.divide_chunks` embeds `Utils.divide_chunks`, including the exact
  semantics of Python's `range(0, len(l), n)` (`pyRangeList`) and of the
  slice `l[x:x+n]` (`pySlice`), so that the behaviour at `n = 0`
  (`ValueError` from `range`) and at negative `n` (empty `range`, hence an
  empty chunk list) is reproduced faithfully.
* `RYMParser.parse_page` embeds the page parser over an abstract model of
  the BeautifulSoup node structure (`EntryNode`): the `td.main_entry`
  nodes with their optional `a.list_album` / `a.list_artist` anchors.
  Python `assert` failures and attribute/index errors are modelled as
  `Except.error`.
* `SpotifyAuthManager.get_track` / `get_tracks_from_album` embed the
  catalog resolver.  The external collaborators (the Spotify search
  endpoints and difflib's `SequenceMatcher.ratio`, which computes
  `Utils.str_similarity`) are abstracted as the fields of a `SpotifyEnv`;
  similarity scores and thresholds are modelled as rationals, which is
  faithful for the comparisons the code performs.
* `mainResolveLoop` / `mainPublish` / `SpotifyAuthManager.add_tracks_to_playlist`
  embed the `__main__` pipeline: the per-entry resolution loop, the
  playlist creation and the chunked append calls (modelled as an emitted
  list of `ApiCall`s).
-/

/-- Python slice `l[a:b]` (step 1): negative indices count from the end,
indices are clamped to `[0, len l]`. -/
def pySlice {α : Type} (l : List α) (a b : Int) : List α :=
  let len : Int := l.length
  let a' : Int := if a < 0 then max (len + a) 0 else min a len
  let b' : Int := if b < 0 then max (len + b) 0 else min b len
  (l.drop a'.toNat).take (b' - a').toNat

/-- Python `range(start, stop, step)` as a list, for nonzero `step`
(`step = 0` raises a `ValueError`, which the caller models; here it gives
`[]` so that the function is total).  For positive `step` the elements are
`start, start+step, …` while `< stop`; for negative `step` while `> stop`. -/
def pyRangeList (start stop step : Int) : List Int :=
  if 0 < step then
    (List.range (((stop - start).toNat + (step.toNat - 1)) / step.toNat)).map
      (fun k : Nat => start + step * (k : Int))
  else if step < 0 then
    (List.range (((start - stop).toNat + ((-step).toNat - 1)) / (-step).toNat)).map
      (fun k : Nat => start + step * (k : Int))
  else []

namespace Utils

/-- Embeds `Utils.divide_chunks(l, n=99)`:
`list_splitted = [l[x:x+n] for x in range(0, len(l), n)]`.
`range` with a zero step raises `ValueError`, modelled as `Except.error`;
the source's default argument is `n = 99`, passed explicitly by callers here. -/
def divide_chunks {α : Type} (l : List α) (n : Int) : Except String (List (List α)) :=
  if n = 0 then .error "ValueError: range() arg 3 must not be zero"
  else .ok ((pyRangeList 0 (l.length : Int) n).map (fun x => pySlice l x (x + n)))

end Utils

/-- The chunk list `divide_chunks` produces for a positive chunk size `m`,
written index-wise: chunk `k` is `(l.drop (m*k)).take m`. -/
def chunkIdx {α : Type} (l : List α) (m : Nat) : List (List α) :=
  (List.range ((l.length + (m - 1)) / m)).map (fun k => (l.drop (m * k)).take m)

/-! ### Page parser (`RYMParser.parse_page`) -/

/-- An `<a>` anchor as BeautifulSoup exposes it: `.get("href")` yields the
attribute value or `None`; `.text` yields the label. -/
structure Anchor where
  href : Option String
  text : String

/-- One `td.main_entry` node of a saved RYM page.
`find("a", class_="list_album")` / `find("a", class_="list_artist")` each
return an anchor or `None`. -/
structure EntryNode where
  list_album : Option Anchor
  list_artist : Option Anchor

/-- The `{"artist": ..., "title": ...}` dict built by the
`entries_simplified` comprehension in `parse_page`. -/
structure SimplifiedEntry where
  artist : String
  title : String

/-- The `{"artist", "title", "type"}` dict appended to `results` by
`parse_page` and consumed as `list_entry` by the `__main__` loop. -/
structure ListEntry where
  artist : String
  title : String
  type : String

/-- Whether the first list is an initial segment of the second
(helper for Python's substring test). -/
def startsWithChars : List Char → List Char → Bool
  | [], _ => true
  | _ :: _, [] => false
  | a :: as, b :: bs => a == b && startsWithChars as bs

/-- Whether `sub` occurs contiguously inside the second list. -/
def hasSubChars (sub : List Char) : List Char → Bool
  | [] => sub.isEmpty
  | b :: t => startsWithChars sub (b :: t) || hasSubChars sub t

/-- Python's substring containment test `sub in s` on strings. -/
def pyInStr (sub s : String) : Bool := hasSubChars sub.toList s.toList

/-- Effectful map modelling a Python list comprehension (or loop) over
fallible element computations: elements are produced in order and the
first raised error aborts the whole computation. -/
def mapME {α β : Type} (f : α → Except String β) : List α → Except String (List β)
  | [] => .ok []
  | a :: t =>
    match f a with
    | .error e => .error e
    | .ok b =>
      match mapME f t with
      | .error e => .error e
      | .ok bs => .ok (b :: bs)

namespace RYMParser

/-- `item.find("a", class_="list_album").get("href")`: if the anchor is
missing, Python raises `AttributeError` on `None`; otherwise `.get`
returns the (optional) attribute value. -/
def findHref (item : EntryNode) : Except String (Option String) :=
  match item.list_album with
  | none => .error "AttributeError: NoneType object has no attribute get"
  | some a => .ok a.href

/-- One element of the `entries_simplified` comprehension: the artist
label is read first, then the title label; a missing anchor raises
`AttributeError`. -/
def simplifyEntry (entry : EntryNode) : Except String SimplifiedEntry :=
  match entry.list_artist with
  | none => .error "AttributeError: NoneType object has no attribute text"
  | some ar =>
    match entry.list_album with
    | none => .error "AttributeError: NoneType object has no attribute text"
    | some al => .ok ⟨ar.text, al.text⟩

/-- One iteration of the `for index, url in enumerate(urls)` loop:
`release_type` is `"track"` when the URL contains `"/release/single/"`,
else `"album"`; a `None` href makes the `in` test raise `TypeError`, and
`entries_simplified[index]` raises `IndexError` when out of range. -/
def rowResult (entries_simplified : List SimplifiedEntry) (iu : Nat × Option String) :
    Except String ListEntry :=
  match iu.2 with
  | none => .error "TypeError: argument of type NoneType is not iterable"
  | some url =>
    let release_type := if pyInStr "/release/single/" url then "track" else "album"
    match entries_simplified[iu.1]? with
    | none => .error "IndexError: list index out of range"
    | some se => .ok ⟨se.artist, se.title, release_type⟩

/-- Embeds `RYMParser.parse_page` on the list of `td.main_entry` nodes the
soup finds in the document.  Python `assert` failures are modelled as
`Except.error` with the assertion message, in source order: entries
found, URLs found, entries simplified, then after the result loop the
URL/pair count comparison and the nonempty-results check. -/
def parse_page (list_items : List EntryNode) : Except String (List ListEntry) :=
  if list_items.length > 0 then
    match mapME findHref list_items with
    | .error e => .error e
    | .ok urls =>
      if urls.length > 0 then
        match mapME simplifyEntry list_items with
        | .error e => .error e
        | .ok entries_simplified =>
          if entries_simplified.length > 0 then
            match mapME (rowResult entries_simplified) urls.enum with
            | .error e => .error e
            | .ok results =>
              if urls.length = entries_simplified.length then
                if results.length > 0 then .ok results
                else .error "No results found."
              else .error "URL list and track info do not match!"
          else .error "Entries not simplified."
      else .error "No URLs found!"
  else .error "No entries found."

end RYMParser

/-! ### Catalog resolver (`SpotifyAuthManager.get_track` /
`get_tracks_from_album`) -/

/-- A track search result: `uri`, `name`, and the names of its artists
(`track["artists"][i]["name"]`). -/
structure TrackResult where
  uri : String
  name : String
  artists : List String

/-- An album search result: `uri`, `name`, and the names of its artists. -/
structure AlbumResult where
  uri : String
  name : String
  artists : List String

/-- The external collaborators of `SpotifyAuthManager`, abstracted:
`sim` models `Utils.str_similarity` (difflib's
`SequenceMatcher(None, a, b).ratio()`, a deterministic score in `[0,1]`);
`searchTracks` / `searchAlbums` model `self.spotify.search(query, ...)`
keyed by the free-text query; `albumTracks` models
`self.spotify.album_tracks(album_id)` keyed by the album URI.  Scores and
thresholds are rationals; the code only compares them, so this is
faithful. -/
structure SpotifyEnv where
  sim : String → String → ℚ
  searchTracks : String → List TrackResult
  searchAlbums : String → List AlbumResult
  albumTracks : String → List String

namespace SpotifyAuthManager

/-- Embeds `get_track(artist_name, title, similarity_threshold)` (source
default threshold `0.95`; callers here pass it explicitly).  The query is
`f"{artist_name} {title}"`; no results gives `""`; threshold `0.0`
accepts the first result unconditionally; otherwise both similarity
gates must pass (`track["artists"][0]` raises `IndexError` on an empty
artists list, modelled as `Except.error`). -/
def get_track (env : SpotifyEnv) (artist_name title : String)
    (similarity_threshold : ℚ) : Except String String :=
  let query := artist_name ++ " " ++ title
  match env.searchTracks query with
  | [] => .ok ""
  | track :: _ =>
    if similarity_threshold = 0 then .ok track.uri
    else
      match track.artists with
      | [] => .error "IndexError: list index out of range"
      | artist :: _ =>
        let artist_similarity := env.sim artist artist_name
        let title_similarity := env.sim track.name title
        if artist_similarity ≥ similarity_threshold ∧ title_similarity ≥ similarity_threshold
        then .ok track.uri
        else .ok ""

/-- Embeds `get_tracks_from_album(artist_name, title, similarity_threshold)`:
same shape as `get_track` over the album search, returning all track URIs
of the accepted album (`album_tracks`), and `[]` on absence or
rejection.  Note the source computes the title similarity with arguments
`(title, album_name)` here. -/
def get_tracks_from_album (env : SpotifyEnv) (artist_name title : String)
    (similarity_threshold : ℚ) : Except String (List String) :=
  let query := artist_name ++ " " ++ title
  match env.searchAlbums query with
  | [] => .ok []
  | album :: _ =>
    let album_id := album.uri
    if similarity_threshold = 0 then .ok (env.albumTracks album_id)
    else
      let album_name := album.name
      match album.artists with
      | [] => .error "IndexError: list index out of range"
      | artist :: _ =>
        let artist_similarity := env.sim artist artist_name
        let title_similarity := env.sim title album_name
        if artist_similarity ≥ similarity_threshold ∧ title_similarity ≥ similarity_threshold
        then .ok (env.albumTracks album_id)
        else .ok []

end SpotifyAuthManager

/-! ### The `__main__` pipeline -/

/-- One iteration of the `__main__` resolution loop: dispatch on
`list_entry["type"]`.  An `"album"` entry contributes the whole list
returned by `get_tracks_from_album` (via `extend`); any other type
contributes the single-element list `[get_track(...)]` (via `append`) —
including the empty string on a no-match.  Both calls use the source's
default `similarity_threshold = 0.95`. -/
def resolveEntry (env : SpotifyEnv) (list_entry : ListEntry) : Except String (List String) :=
  if list_entry.type = "album" then
    SpotifyAuthManager.get_tracks_from_album env list_entry.artist list_entry.title (95 / 100)
  else
    match SpotifyAuthManager.get_track env list_entry.artist list_entry.title (95 / 100) with
    | .error e => .error e
    | .ok item => .ok [item]

/-- The `__main__` accumulation loop: `to_be_added` starts empty and each
entry's contribution is appended in entry order. -/
def mainResolveLoop (env : SpotifyEnv) (to_be_added : List String) :
    List ListEntry → Except String (List String)
  | [] => .ok to_be_added
  | e :: rest =>
    match resolveEntry env e with
    | .error err => .error err
    | .ok items => mainResolveLoop env (to_be_added ++ items) rest

/-! ### Playlist publication -/

/-- An observable call to the Spotify client in the publish path. -/
inductive ApiCall where
  | create (title : String)
  | append (playlist_id : String) (items : List String)

namespace SpotifyAuthManager

/-- Embeds `add_tracks_to_playlist(playlist_id, tracks)`: 99 or more
tracks are split with `Utils.divide_chunks(tracks)` (default size 99) and
each chunk submitted as its own `playlist_add_items` call, in order;
otherwise a single call carries the whole list.  The emitted calls are
returned. -/
def add_tracks_to_playlist (playlist_id : String) (tracks : List String) :
    Except String (List ApiCall) :=
  if tracks.length ≥ 99 then
    match Utils.divide_chunks tracks 99 with
    | .error e => .error e
    | .ok chunks => .ok (chunks.map (fun chunk => ApiCall.append playlist_id chunk))
  else .ok [ApiCall.append playlist_id tracks]

end SpotifyAuthManager

/-- Embeds the publish tail of `__main__`: `add_to_existing` models the
already-lowercased prompt answer (`input(...).lower()`).  Whatever the
answer is, `playlist_name` is just the prompt input,
`create_playlist(title=playlist_name)` is always called (the service
returns `created_id`), and the tracks are appended to the *newly created*
playlist's id. -/
def mainPublish (created_id add_to_existing prompt_input : String)
    (to_be_added : List String) : Except String (List ApiCall) :=
  let playlist_name := if add_to_existing = "y" then prompt_input else prompt_input
  let playlist := created_id
  match SpotifyAuthManager.add_tracks_to_playlist playlist to_be_added with
  | .error e => .error e
  | .ok appends => .ok (ApiCall.create playlist_name :: appends)

/-! ### Concrete fixtures used by witnesses and counterexamples -/

/-- A well-formed page node: an album URL with artist and title labels. -/
def pageNodeW : EntryNode :=
  ⟨some ⟨some "https://rateyourmusic.com/release/album/artist/title/", "Album Title"⟩,
   some ⟨none, "Artist Name"⟩⟩

/-- An environment whose searches return nothing. -/
def envC1W : SpotifyEnv := ⟨fun _ _ => 1, fun _ => [], fun _ => [], fun _ => []⟩

/-- Track search hit for the C7 witness. -/
def trC7 : TrackResult := ⟨"spotify:track:creep", "Creep (Remastered)", ["Radiohead"]⟩

/-- Album search hit for the C7 witness. -/
def alC7 : AlbumResult := ⟨"spotify:album:pablo", "Pablo Honey (Collectors Edition)", ["Radiohead"]⟩

/-- Environment for the C7 witness: artist similarity `0.99`, title
similarity `0.80`. -/
def envC7 : SpotifyEnv :=
  ⟨fun x _ => if x = "Radiohead" then 99 / 100 else 4 / 5,
   fun _ => [trC7], fun _ => [alC7], fun _ => ["spotify:track:x1"]⟩

/-- Track search hit for the C8 witness, unrelated to the query. -/
def trC8 : TrackResult := ⟨"spotify:track:zzz", "Zzz", ["Nobody"]⟩

/-- Album search hit for the C8 witness, unrelated to the query. -/
def alC8 : AlbumResult := ⟨"spotify:album:zzz", "Zzz", ["Nobody"]⟩

/-- Environment for the C8 witness: similarity identically `0`
(completely unrelated metadata). -/
def envC8 : SpotifyEnv :=
  ⟨fun _ _ => 0, fun _ => [trC8], fun _ => [alC8],
   fun _ => ["spotify:track:a1", "spotify:track:a2"]⟩

/-- Environment for the C9 witness: both searches return zero results. -/
def envC9 : SpotifyEnv := ⟨fun _ _ => 1, fun _ => [], fun _ => [], fun _ => []⟩

lemma pySlice_chunk {α : Type} (l : List α) (m k : Nat) :
    pySlice l ((m : Int) * (k : Int)) ((m : Int) * (k : Int) + (m : Int)) =
      (l.drop (m * k)).take m := by
  have hmkm : ((m : Int) * (k : Int) + (m : Int)) = ((m * k + m : Nat) : Int) := by
    push_cast; ring
  have hmk : ((m : Int) * (k : Int)) = ((m * k : Nat) : Int) := by push_cast; ring
  rw [hmkm, hmk]
  generalize m * k = p
  simp only [pySlice]
  have h1 : ¬ (((p : Nat) : Int) < 0) := by omega
  have h2 : ¬ (((p + m : Nat) : Int) < 0) := by omega
  rw [if_neg h1, if_neg h2]
  have ha : ((p : Nat) : Int) ⊓ ((l.length : Nat) : Int) = ((min p l.length : Nat) : Int) := by
    omega
  have hb : ((p + m : Nat) : Int) ⊓ ((l.length : Nat) : Int) =
      ((min (p + m) l.length : Nat) : Int) := by omega
  rw [ha, hb]
  have hA : ((min p l.length : Nat) : Int).toNat = min p l.length := by omega
  have hsub : (((min (p + m) l.length : Nat) : Int) - ((min p l.length : Nat) : Int)).toNat =
      min (p + m) l.length - min p l.length := by omega
  rw [hA, hsub]
  rcases le_or_lt l.length p with hle | hlt
  · have hB : min p l.length = l.length := by omega
    rw [hB]
    have hC : min (p + m) l.length - l.length = 0 := by omega
    rw [hC]
    have hnil : l.drop p = [] := List.drop_eq_nil_of_le hle
    rw [hnil]
    simp
  · have hB : min p l.length = p := by omega
    rw [hB]
    have hC : min (p + m) l.length - p = min m (l.length - p) := by omega
    rw [hC, List.take_eq_take]
    simp only [List.length_drop]
    omega

lemma divide_chunks_pos {α : Type} (l : List α) (m : Nat) (hm : 1 ≤ m) :
    Utils.divide_chunks l (m : Int) = .ok (chunkIdx l m) := by
  have hne : ((m : Nat) : Int) ≠ 0 := by omega
  have hpos : (0 : Int) < ((m : Nat) : Int) := by omega
  unfold Utils.divide_chunks pyRangeList
  rw [if_neg hne, if_pos hpos]
  have hstop : (((l.length : Nat) : Int) - 0).toNat = l.length := by omega
  have hstep : ((m : Nat) : Int).toNat = m := by omega
  rw [hstop, hstep, List.map_map]
  have hfun : ((fun x => pySlice l x (x + (m : Int))) ∘ (fun k : Nat => 0 + (m : Int) * (k : Int)))
      = fun k : Nat => (l.drop (m * k)).take m := by
    funext k
    simp only [Function.comp_apply, zero_add]
    exact pySlice_chunk l m k
  rw [hfun]
  rfl

lemma chunkIdx_nil {α : Type} (m : Nat) (hm : 1 ≤ m) : chunkIdx ([] : List α) m = [] := by
  unfold chunkIdx
  have : (0 + (m - 1)) / m = 0 := Nat.div_eq_of_lt (by omega)
  simp only [List.length_nil, this, List.range_zero, List.map_nil]

lemma chunkIdx_cons_struct {α : Type} (l : List α) (m : Nat) (hm : 1 ≤ m) (hl : l ≠ []) :
    chunkIdx l m = l.take m :: chunkIdx (l.drop m) m := by
  have hL : 1 ≤ l.length := List.length_pos.mpr hl
  have hcount : (l.length + (m - 1)) / m = ((l.drop m).length + (m - 1)) / m + 1 := by
    rw [List.length_drop]
    rcases le_or_lt m l.length with hle | hlt
    · have h1 : l.length + (m - 1) = (l.length - m + (m - 1)) + m := by omega
      rw [h1, Nat.add_div_right _ (by omega)]
    · have h1 : l.length - m = 0 := by omega
      rw [h1]
      have h2 : (0 + (m - 1)) / m = 0 := Nat.div_eq_of_lt (by omega)
      rw [h2]
      exact Nat.div_eq_of_lt_le (by omega) (by omega)
  unfold chunkIdx
  rw [hcount, List.range_succ_eq_map, List.map_cons, List.map_map]
  have hhead : (l.drop (m * 0)).take m = l.take m := by simp
  have hfun : ((fun k => (l.drop (m * k)).take m) ∘ Nat.succ)
      = fun k : Nat => ((l.drop m).drop (m * k)).take m := by
    funext k
    simp only [Function.comp_apply]
    have h2 : (l.drop m).drop (m * k) = l.drop (m + m * k) := by rw [List.drop_drop]
    have h1 : m * Nat.succ k = m + m * k := by rw [Nat.mul_succ, Nat.add_comm]
    rw [h1, h2]
  rw [hhead, hfun]

lemma chunkIdx_flatten {α : Type} (m : Nat) (hm : 1 ≤ m) (l : List α) :
    (chunkIdx l m).flatten = l := by
  by_cases hl : l = []
  · subst hl
    rw [chunkIdx_nil m hm]
    rfl
  · rw [chunkIdx_cons_struct l m hm hl, List.flatten_cons,
      chunkIdx_flatten m hm (l.drop m), List.take_append_drop]
termination_by l.length
decreasing_by
  simp only [List.length_drop]
  have := List.length_pos.mpr hl
  omega

lemma chunkIdx_length {α : Type} (l : List α) (m : Nat) :
    (chunkIdx l m).length = (l.length + (m - 1)) / m := by
  simp [chunkIdx]

lemma chunkIdx_mem_le {α : Type} (l : List α) (m : Nat) (c : List α)
    (hc : c ∈ chunkIdx l m) : c.length ≤ m := by
  unfold chunkIdx at hc
  rw [List.mem_map] at hc
  obtain ⟨k, _, rfl⟩ := hc
  simp only [List.length_take, List.length_drop]
  omega

lemma chunkIdx_dropLast {α : Type} (l : List α) (m : Nat) (hm : 1 ≤ m) (c : List α)
    (hc : c ∈ (chunkIdx l m).dropLast) : c.length = m := by
  unfold chunkIdx at hc
  rw [← List.map_dropLast, List.mem_map] at hc
  obtain ⟨k, hk, rfl⟩ := hc
  cases hcnt : (l.length + (m - 1)) / m with
  | zero =>
      rw [hcnt] at hk
      simp at hk
  | succ c' =>
      rw [hcnt, List.range_succ, List.dropLast_concat, List.mem_range] at hk
      have hk2 : k + 2 ≤ c' + 1 := by omega
      have hk3 : k + 2 ≤ (l.length + (m - 1)) / m := hcnt ▸ hk2
      have hmul : (k + 2) * m ≤ l.length + (m - 1) :=
        (Nat.le_div_iff_mul_le (by omega)).mp hk3
      have hexp : (k + 2) * m = m * k + m + m := by ring
      rw [hexp] at hmul
      simp only [List.length_take, List.length_drop]
      generalize hp : m * k = p at hmul ⊢
      omega

lemma chunkIdx_count_bounds {α : Type} (l : List α) (m : Nat) (hm : 1 ≤ m) :
    l.length ≤ (chunkIdx l m).length * m ∧ (chunkIdx l m).length * m < l.length + m := by
  rw [chunkIdx_length]
  have hdm := Nat.div_add_mod (l.length + (m - 1)) m
  have hmod : (l.length + (m - 1)) % m < m := Nat.mod_lt _ (by omega)
  generalize hq : (l.length + (m - 1)) / m = q at hdm ⊢
  generalize hr : (l.length + (m - 1)) % m = r at hdm hmod
  have hcomm : q * m = m * q := Nat.mul_comm q m
  rw [hcomm]
  generalize hp : m * q = p at hdm ⊢
  omega

/-- **C5.** For every list `L` and integer size `n ≥ 1`, `divide_chunks L n`
succeeds; concatenating the chunks in order yields exactly `L` (order
preserved, every element exactly once); every chunk has length at most `n`;
the number of chunks is `(len + (n-1)) / n`, i.e. `ceil(len / n)` (the two
bounds `len ≤ count*n < len + n` pin this down as the ceiling); and every
chunk except possibly the last has length exactly `n`. -/
theorem C5_divide_chunks_spec {α : Type} (L : List α) (n : Int) (hn : 1 ≤ n) :
    ∃ cs, Utils.divide_chunks L n = .ok cs ∧
      cs.flatten = L ∧
      (∀ c ∈ cs, (c.length : Int) ≤ n) ∧
      cs.length = (L.length + (n.toNat - 1)) / n.toNat ∧
      (L.length ≤ cs.length * n.toNat ∧ cs.length * n.toNat < L.length + n.toNat) ∧
      (∀ c ∈ cs.dropLast, (c.length : Int) = n) := by
  have hm : 1 ≤ n.toNat := by omega
  have hcast : ((n.toNat : Nat) : Int) = n := by omega
  refine ⟨chunkIdx L n.toNat, ?_, chunkIdx_flatten _ hm L, ?_,
    chunkIdx_length L n.toNat, chunkIdx_count_bounds L n.toNat hm, ?_⟩
  · rw [← hcast]
    exact divide_chunks_pos L n.toNat hm
  · intro c hc
    have := chunkIdx_mem_le L n.toNat c hc
    omega
  · intro c hc
    have := chunkIdx_dropLast L n.toNat hm c hc
    omega

/-- Witness for C5 at `L = [1,2,3,4,5]`, `n = 2`. -/
theorem C5_divide_chunks_spec_witness :
    ∃ cs, Utils.divide_chunks ([1, 2, 3, 4, 5] : List Nat) 2 = .ok cs ∧
      cs.flatten = [1, 2, 3, 4, 5] ∧ cs.length = 3 := by
  obtain ⟨cs, h1, h2, _, h4, _, _⟩ :=
    C5_divide_chunks_spec ([1, 2, 3, 4, 5] : List Nat) 2 (by norm_num)
  exact ⟨cs, h1, h2, by rw [h4]; rfl⟩

/-- **C3 (amended).** `divide_chunks l 0` is an error (Python's `range`
raises `ValueError` on a zero step), but for strictly negative sizes the
source does *not* fail: `range(0, len(l), n)` is empty for `n < 0`, so
`divide_chunks l n` silently returns an empty chunk list, dropping every
element of a nonempty `l`. -/
theorem C3_nonpositive_size {α : Type} (l : List α) :
    Utils.divide_chunks l 0 = .error "ValueError: range() arg 3 must not be zero" ∧
    ∀ n : Int, n < 0 → Utils.divide_chunks l n = .ok [] := by
  constructor
  · rfl
  · intro n hn
    unfold Utils.divide_chunks
    rw [if_neg (by omega)]
    unfold pyRangeList
    rw [if_neg (by omega), if_pos hn]
    have h0 : ((0 : Int) - (l.length : Int)).toNat = 0 := by omega
    rw [h0]
    have h1 : (0 + ((-n).toNat - 1)) / (-n).toNat = 0 := Nat.div_eq_of_lt (by omega)
    rw [h1]
    rfl

/-- Witness for C3 (amended) at `l = [7]`, sizes `0` and `-2`. -/
theorem C3_nonpositive_size_witness :
    Utils.divide_chunks ([7] : List Nat) 0 =
      .error "ValueError: range() arg 3 must not be zero" ∧
    Utils.divide_chunks ([7] : List Nat) (-2) = .ok [] :=
  ⟨(C3_nonpositive_size [7]).1, (C3_nonpositive_size [7]).2 (-2) (by norm_num)⟩

/-- **C3 counterexample.** The claim says every `size ≤ 0` fails; but at
`size = -1` on the one-element list `[7]` the code returns `.ok []` — a
successful result whose concatenation is not the input, i.e. the elements
of `l` are silently dropped. -/
theorem C3_counterexample :
    Utils.divide_chunks ([7] : List Nat) (-1) = .ok [] ∧
    ([] : List (List Nat)).flatten ≠ [7] := by
  exact ⟨rfl, by decide⟩

lemma mapME_ok_length {α β : Type} (f : α → Except String β) :
    ∀ (l : List α) (res : List β), mapME f l = .ok res → res.length = l.length := by
  intro l
  induction l with
  | nil =>
      intro res h
      cases h
      rfl
  | cons a t ih =>
      intro res h
      unfold mapME at h
      cases hfa : f a with
      | error e => rw [hfa] at h; cases h
      | ok b =>
          rw [hfa] at h
          cases hrest : mapME f t with
          | error e => rw [hrest] at h; cases h
          | ok bs =>
              rw [hrest] at h
              cases h
              simp [ih bs hrest]

/-- **C4.** `parse_page` is all-or-nothing: an empty node list is the
"No entries found." assertion failure, and on success the returned entry
list covers every row of the page (one entry per `td.main_entry` node)
and is nonempty.  The other failure conditions of the claim (zero URLs,
zero simplified pairs, URL/pair count mismatch) cannot co-occur with a
successful return: the URL and pair comprehensions each range over the
entry nodes, so on success both counts equal the node count. -/
theorem C4_parse_page_all_or_error (list_items : List EntryNode) :
    (list_items = [] → RYMParser.parse_page list_items = .error "No entries found.") ∧
    (∀ rs, RYMParser.parse_page list_items = .ok rs →
      rs.length = list_items.length ∧ 0 < rs.length) := by
  constructor
  · intro h
    subst h
    rfl
  · intro rs h
    unfold RYMParser.parse_page at h
    by_cases h0 : list_items.length > 0
    · rw [if_pos h0] at h
      cases hurls : mapME RYMParser.findHref list_items with
      | error e => rw [hurls] at h; simp at h
      | ok urls =>
          rw [hurls] at h
          simp only [] at h
          have hul : urls.length = list_items.length := mapME_ok_length _ _ _ hurls
          by_cases h1 : urls.length > 0
          · rw [if_pos h1] at h
            cases hes : mapME RYMParser.simplifyEntry list_items with
            | error e => rw [hes] at h; simp at h
            | ok es =>
                rw [hes] at h
                simp only [] at h
                by_cases h2 : es.length > 0
                · rw [if_pos h2] at h
                  cases hres : mapME (RYMParser.rowResult es) urls.enum with
                  | error e => rw [hres] at h; simp at h
                  | ok results =>
                      rw [hres] at h
                      simp only [] at h
                      have hresl : results.length = urls.enum.length :=
                        mapME_ok_length _ _ _ hres
                      rw [List.enum_length] at hresl
                      by_cases h3 : urls.length = es.length
                      · rw [if_pos h3] at h
                        by_cases h4 : results.length > 0
                        · rw [if_pos h4] at h
                          cases h
                          exact ⟨by omega, h4⟩
                        · rw [if_neg h4] at h; simp at h
                      · rw [if_neg h3] at h; simp at h
                · rw [if_neg h2] at h; simp at h
          · rw [if_neg h1] at h; simp at h
    · rw [if_neg h0] at h; simp at h

/-- Witness for C4: the empty page errors, and a one-row well-formed page
yields exactly one entry. -/
theorem C4_parse_page_all_or_error_witness :
    RYMParser.parse_page ([] : List EntryNode) = .error "No entries found." ∧
    ∃ rs, RYMParser.parse_page [pageNodeW] = .ok rs ∧ rs.length = 1 ∧ 0 < rs.length := by
  refine ⟨(C4_parse_page_all_or_error []).1 rfl, ?_⟩
  have h : RYMParser.parse_page [pageNodeW] =
      .ok [⟨"Artist Name", "Album Title", "album"⟩] := rfl
  obtain ⟨h1, h2⟩ := (C4_parse_page_all_or_error [pageNodeW]).2 _ h
  exact ⟨_, h, h1.trans rfl, h2⟩

/-- **C9.** For every environment, query and threshold: zero track search
results make `get_track` return the empty string normally, and zero album
search results make `get_tracks_from_album` return the empty list
normally — `.ok`, never `.error`. -/
theorem C9_no_results_empty (env : SpotifyEnv) (artist_name title : String) (t : ℚ) :
    (env.searchTracks (artist_name ++ " " ++ title) = [] →
      SpotifyAuthManager.get_track env artist_name title t = .ok "") ∧
    (env.searchAlbums (artist_name ++ " " ++ title) = [] →
      SpotifyAuthManager.get_tracks_from_album env artist_name title t = .ok []) := by
  constructor
  · intro h
    simp [SpotifyAuthManager.get_track, h]
  · intro h
    simp [SpotifyAuthManager.get_tracks_from_album, h]

/-- Witness for C9 at an environment with empty search results and the
default threshold `0.95`. -/
theorem C9_no_results_empty_witness :
    SpotifyAuthManager.get_track envC9 "Radiohead" "Creep" (95 / 100) = .ok "" ∧
    SpotifyAuthManager.get_tracks_from_album envC9 "Radiohead" "OK Computer" (95 / 100) =
      .ok [] :=
  ⟨(C9_no_results_empty envC9 "Radiohead" "Creep" (95 / 100)).1 rfl,
   (C9_no_results_empty envC9 "Radiohead" "OK Computer" (95 / 100)).2 rfl⟩

/-- **C8.** With `similarity_threshold = 0.0` the similarity gate is
bypassed entirely: `get_track` returns the first search result's URI
unconditionally, and `get_tracks_from_album` returns all tracks of the
first album result unconditionally — whatever the result's metadata. -/
theorem C8_zero_threshold (env : SpotifyEnv) (artist_name title : String)
    (tr : TrackResult) (trs : List TrackResult) (al : AlbumResult) (als : List AlbumResult) :
    (env.searchTracks (artist_name ++ " " ++ title) = tr :: trs →
      SpotifyAuthManager.get_track env artist_name title 0 = .ok tr.uri) ∧
    (env.searchAlbums (artist_name ++ " " ++ title) = al :: als →
      SpotifyAuthManager.get_tracks_from_album env artist_name title 0 =
        .ok (env.albumTracks al.uri)) := by
  constructor
  · intro h
    simp [SpotifyAuthManager.get_track, h]
  · intro h
    simp [SpotifyAuthManager.get_tracks_from_album, h]

/-- Witness for C8: the search hits are completely unrelated to the query
(similarity identically `0`), yet threshold `0.0` accepts them. -/
theorem C8_zero_threshold_witness :
    SpotifyAuthManager.get_track envC8 "Radiohead" "Creep" 0 = .ok "spotify:track:zzz" ∧
    SpotifyAuthManager.get_tracks_from_album envC8 "Radiohead" "Creep" 0 =
      .ok ["spotify:track:a1", "spotify:track:a2"] :=
  ⟨(C8_zero_threshold envC8 "Radiohead" "Creep" trC8 [] alC8 []).1 rfl,
   (C8_zero_threshold envC8 "Radiohead" "Creep" trC8 [] alC8 []).2 rfl⟩

/-- **C7.** For a positive threshold (in `(0,1]`), the first search
result is accepted only if *both* the artist similarity and the title
similarity reach the threshold: if either score is below it, `get_track`
returns empty and `get_tracks_from_album` returns the empty list. -/
theorem C7_similarity_gate (env : SpotifyEnv) (artist_name title : String) (t : ℚ)
    (tr : TrackResult) (trs : List TrackResult) (al : AlbumResult) (als : List AlbumResult)
    (a : String) (ars : List String) (ht0 : 0 < t) (ht1 : t ≤ 1) :
    (env.searchTracks (artist_name ++ " " ++ title) = tr :: trs →
      tr.artists = a :: ars →
      env.sim a artist_name < t ∨ env.sim tr.name title < t →
      SpotifyAuthManager.get_track env artist_name title t = .ok "") ∧
    (env.searchAlbums (artist_name ++ " " ++ title) = al :: als →
      al.artists = a :: ars →
      env.sim a artist_name < t ∨ env.sim title al.name < t →
      SpotifyAuthManager.get_tracks_from_album env artist_name title t = .ok []) := by
  constructor
  · intro hs ha hlt
    have hgate : ¬(env.sim a artist_name ≥ t ∧ env.sim tr.name title ≥ t) := by
      rcases hlt with h | h
      · exact fun hc => absurd hc.1 (not_le.mpr h)
      · exact fun hc => absurd hc.2 (not_le.mpr h)
    simp only [SpotifyAuthManager.get_track, hs, ha]
    rw [if_neg (ne_of_gt ht0), if_neg hgate]
  · intro hs ha hlt
    have hgate : ¬(env.sim a artist_name ≥ t ∧ env.sim title al.name ≥ t) := by
      rcases hlt with h | h
      · exact fun hc => absurd hc.1 (not_le.mpr h)
      · exact fun hc => absurd hc.2 (not_le.mpr h)
    simp only [SpotifyAuthManager.get_tracks_from_album, hs, ha]
    rw [if_neg (ne_of_gt ht0), if_neg hgate]

/-- Witness for C7 at threshold `0.95` with artist similarity `0.99` and
title similarity `0.80`: one failing gate rejects the match. -/
theorem C7_similarity_gate_witness :
    SpotifyAuthManager.get_track envC7 "Radiohead" "Creep" (95 / 100) = .ok "" ∧
    SpotifyAuthManager.get_tracks_from_album envC7 "Radiohead" "Creep" (95 / 100) = .ok [] :=
  ⟨(C7_similarity_gate envC7 "Radiohead" "Creep" (95 / 100) trC7 [] alC7 [] "Radiohead" []
      (by norm_num) (by norm_num)).1 rfl rfl
      (Or.inr (by simp only [envC7, trC7, String.reduceEq, if_false]; norm_num)),
   (C7_similarity_gate envC7 "Radiohead" "Creep" (95 / 100) trC7 [] alC7 [] "Radiohead" []
      (by norm_num) (by norm_num)).2 rfl rfl
      (Or.inr (by simp only [envC7, alC7, String.reduceEq, if_false]; norm_num))⟩

lemma mainResolveLoop_acc (env : SpotifyEnv) :
    ∀ (entries : List ListEntry) (acc : List String),
      mainResolveLoop env acc entries =
        (mapME (resolveEntry env) entries).map (fun ls => acc ++ ls.flatten) := by
  intro entries
  induction entries with
  | nil =>
      intro acc
      simp [mainResolveLoop, mapME, Except.map]
  | cons e rest ih =>
      intro acc
      unfold mainResolveLoop mapME
      cases he : resolveEntry env e with
      | error err => simp [Except.map]
      | ok items =>
          simp only []
          rw [ih (acc ++ items)]
          cases hrest : mapME (resolveEntry env) rest with
          | error e2 => simp [Except.map]
          | ok ls => simp [Except.map, List.append_assoc]

/-- **C1 (amended).** The `__main__` loop dispatches each entry in order
(`"album"` → `get_tracks_from_album`, otherwise `get_track` wrapped in a
one-element list) and the accumulated list is the concatenation of the
per-entry results in entry order.  An ALBUM no-match contributes no
elements (its result is the empty list), but a TRACK no-match is *not*
skipped: the empty-string result is appended as one element of the
accumulated sequence. -/
theorem C1_run_aggregation (env : SpotifyEnv) (entries : List ListEntry)
    (artist_name title : String) :
    (mainResolveLoop env [] entries =
      (mapME (resolveEntry env) entries).map List.flatten) ∧
    (env.searchAlbums (artist_name ++ " " ++ title) = [] →
      resolveEntry env ⟨artist_name, title, "album"⟩ = .ok []) ∧
    (env.searchTracks (artist_name ++ " " ++ title) = [] →
      resolveEntry env ⟨artist_name, title, "track"⟩ = .ok [""]) := by
  refine ⟨?_, ?_, ?_⟩
  · rw [mainResolveLoop_acc]
    cases mapME (resolveEntry env) entries <;> simp [Except.map]
  · intro h
    simp [resolveEntry, SpotifyAuthManager.get_tracks_from_album, h]
  · intro h
    simp [resolveEntry, SpotifyAuthManager.get_track, h]

/-- Witness for C1 (amended) at the empty-search environment. -/
theorem C1_run_aggregation_witness :
    (mainResolveLoop envC1W [] [⟨"A", "T", "track"⟩] =
      (mapME (resolveEntry envC1W) [⟨"A", "T", "track"⟩]).map List.flatten) ∧
    resolveEntry envC1W ⟨"A", "T", "album"⟩ = .ok [] ∧
    resolveEntry envC1W ⟨"A", "T", "track"⟩ = .ok [""] :=
  ⟨(C1_run_aggregation envC1W [⟨"A", "T", "track"⟩] "A" "T").1,
   (C1_run_aggregation envC1W [⟨"A", "T", "track"⟩] "A" "T").2.1 rfl,
   (C1_run_aggregation envC1W [⟨"A", "T", "track"⟩] "A" "T").2.2 rfl⟩

/-- **C1 counterexample.** With no search results, a single TRACK entry's
no-match outcome is appended as an empty-string element: the run returns
`[""]`, not the `[]` the claim's "contributes no element" predicts. -/
theorem C1_counterexample :
    mainResolveLoop envC1W [] [⟨"A", "T", "track"⟩] = .ok [""] ∧
    mainResolveLoop envC1W [] [⟨"A", "T", "track"⟩] ≠ .ok [] :=
  ⟨rfl, fun h =>
    absurd (Except.ok.inj (h : (Except.ok [""] : Except String (List String)) = Except.ok []))
      (by simp)⟩

/-- **C2 (code-bug evaluation).** With `add_to_existing = "y"` (the
pre-existing case) and the user-entered playlist id `"existing123"`, the
publish path still issues a `create` call — titled with the entered id —
and appends the tracks to the freshly created playlist `"newPL"` rather
than to `"existing123"`: `create_playlist` is called unconditionally. -/
theorem C2_create_despite_existing :
    mainPublish "newPL" "y" "existing123" ["spotify:track:1"] =
      .ok [ApiCall.create "existing123", ApiCall.append "newPL" ["spotify:track:1"]] := rfl

/-- **C6.** For *every* accumulated track-id list, `add_tracks_to_playlist`
partitions it into batches of at most 99 and submits each batch as its
own append call to the target playlist, in order: the emitted call list
is exactly the batch list mapped to appends, the batches concatenate back
to the input in order, and every batch has length at most 99.  In
particular, for any 150 ids exactly two append calls are issued, carrying
the first 99 and the remaining 51. -/
theorem C6_publish_chunks (playlist_id : String) (tracks : List String) :
    (∃ batches : List (List String),
      SpotifyAuthManager.add_tracks_to_playlist playlist_id tracks =
        .ok (batches.map (fun b => ApiCall.append playlist_id b)) ∧
      batches.flatten = tracks ∧
      ∀ b ∈ batches, b.length ≤ 99) ∧
    (tracks.length = 150 →
      SpotifyAuthManager.add_tracks_to_playlist playlist_id tracks =
        .ok [ApiCall.append playlist_id (tracks.take 99),
             ApiCall.append playlist_id (tracks.drop 99)] ∧
      (tracks.take 99).length = 99 ∧ (tracks.drop 99).length = 51) := by
  have hchunks : Utils.divide_chunks tracks (99 : Int) = .ok (chunkIdx tracks 99) := by
    have := divide_chunks_pos tracks 99 (by norm_num)
    simpa using this
  constructor
  · by_cases h99 : tracks.length ≥ 99
    · refine ⟨chunkIdx tracks 99, ?_, chunkIdx_flatten 99 (by norm_num) tracks, ?_⟩
      · unfold SpotifyAuthManager.add_tracks_to_playlist
        rw [if_pos h99, hchunks]
      · intro b hb
        exact chunkIdx_mem_le tracks 99 b hb
    · refine ⟨[tracks], ?_, by simp, ?_⟩
      · unfold SpotifyAuthManager.add_tracks_to_playlist
        rw [if_neg h99]
        rfl
      · intro b hb
        simp only [List.mem_singleton] at hb
        subst hb
        omega
  · intro h
    have h99 : tracks.length ≥ 99 := by omega
    have hidx : chunkIdx tracks 99 = [tracks.take 99, tracks.drop 99] := by
      unfold chunkIdx
      rw [h]
      have hcnt : (150 + (99 - 1)) / 99 = 2 := by norm_num
      rw [hcnt]
      have hr : List.range 2 = [0, 1] := rfl
      rw [hr]
      simp only [List.map_cons, List.map_nil, Nat.mul_zero, Nat.mul_one, List.drop_zero]
      rw [List.take_of_length_le (show (tracks.drop 99).length ≤ 99 by
        rw [List.length_drop, h]; norm_num)]
    refine ⟨?_, ?_, ?_⟩
    · unfold SpotifyAuthManager.add_tracks_to_playlist
      rw [if_pos h99, hchunks]
      simp only []
      rw [hidx]
      rfl
    · rw [List.length_take, h]
      omega
    · rw [List.length_drop, h]

/-- Witness for C6 at a concrete 150-element list: both the universal
partition clause and the two-call example, with the length hypothesis
discharged concretely. -/
theorem C6_publish_chunks_witness :
    (∃ batches : List (List String),
      SpotifyAuthManager.add_tracks_to_playlist "p" (List.replicate 150 "t") =
        .ok (batches.map (fun b => ApiCall.append "p" b)) ∧
      batches.flatten = List.replicate 150 "t" ∧
      ∀ b ∈ batches, b.length ≤ 99) ∧
    SpotifyAuthManager.add_tracks_to_playlist "p" (List.replicate 150 "t") =
      .ok [ApiCall.append "p" ((List.replicate 150 "t").take 99),
           ApiCall.append "p" ((List.replicate 150 "t").drop 99)] ∧
    ((List.replicate 150 "t").take 99).length = 99 ∧
    ((List.replicate 150 "t").drop 99).length = 51 :=
  ⟨(C6_publish_chunks "p" (List.replicate 150 "t")).1,
   (C6_publish_chunks "p" (List.replicate 150 "t")).2 (by simp)⟩

/-- **C10 (implicit).** Lists shorter than 99 — including the empty
list — are submitted unchunked as exactly one append call carrying the
whole list; a list of exactly 99 takes the chunking path but still yields
a single append call carrying all 99 ids. -/
theorem C10_small_lists_single_call (playlist_id : String) (tracks : List String) :
    (tracks.length < 99 →
      SpotifyAuthManager.add_tracks_to_playlist playlist_id tracks =
        .ok [ApiCall.append playlist_id tracks]) ∧
    (tracks.length = 99 →
      SpotifyAuthManager.add_tracks_to_playlist playlist_id tracks =
        .ok [ApiCall.append playlist_id tracks]) := by
  constructor
  · intro h
    unfold SpotifyAuthManager.add_tracks_to_playlist
    rw [if_neg (by omega)]
  · intro h
    unfold SpotifyAuthManager.add_tracks_to_playlist
    rw [if_pos (by omega)]
    have hchunks : Utils.divide_chunks tracks (99 : Int) = .ok (chunkIdx tracks 99) := by
      have := divide_chunks_pos tracks 99 (by norm_num)
      simpa using this
    rw [hchunks]
    simp only []
    have hidx : chunkIdx tracks 99 = [tracks] := by
      unfold chunkIdx
      rw [h]
      have hcnt : (99 + (99 - 1)) / 99 = 1 := by norm_num
      rw [hcnt]
      have hr : List.range 1 = [0] := rfl
      rw [hr]
      simp only [List.map_cons, List.map_nil, Nat.mul_zero, List.drop_zero]
      rw [List.take_of_length_le (by omega)]
    rw [hidx]
    rfl

/-- Witness for C10 at the empty list and at a 99-element list. -/
theorem C10_small_lists_single_call_witness :
    SpotifyAuthManager.add_tracks_to_playlist "p" ([] : List String) =
      .ok [ApiCall.append "p" []] ∧
    SpotifyAuthManager.add_tracks_to_playlist "p" (List.replicate 99 "t") =
      .ok [ApiCall.append "p" (List.replicate 99 "t")] :=
  ⟨(C10_small_lists_single_call "p" []).1 (by simp),
   (C10_small_lists_single_call "p" (List.replicate 99 "t")).2 (by simp)⟩
